import Mathlib

/-
Shallow embedding of `src/slate_detector.py` (video slate detection script).

Conventions of the embedding:
* A decoded frame is represented by its grayscale plane (`gray`, one
  luminance value per pixel, as produced by the external library call
  `cv2.cvtColor`) together with the boolean edge map produced by the
  external edge detector `cv2.Canny` (`edges`); the classifier consumes a
  frame only through these two views.
* Machine floats are modelled as rationals.
* `cv2.VideoCapture` is modelled by `VideoHandle`, exposing the raw
  `CAP_PROP_FPS` value, `CAP_PROP_FRAME_COUNT` and positioned reads,
  where `frame_at i = none` models `cap.read()` returning `ret = False`.
  The `reads` field of `PVOut` instruments how many `cap.read()` attempts
  one invocation performed.
* The truncated hash `hashlib.md5(str(video_path)).hexdigest()[:8]` is an
  external hashing capability and is passed in as a `String → String`
  parameter of `process_video`.
* The only exception that can be raised inside the `try` block of
  `process_video` in this model is the one raised by
  `cv2.imwrite(path, None)` when no best frame was captured; it is
  modelled by the error string "imwrite error" standing for `str(e)`.
* `executor.submit(self.process_video, video)` serializes the detector
  once per task, so every task runs against its own copy of the
  submission-time state, in particular of `saved_folders`;
  `process_videos_parallel` therefore maps every video through
  `process_video` started from the same initial `saved_folders` list.
-/

/- ===== video discovery (`find_video_files`, module constant
   `VIDEO_EXTENSIONS`) ===== -/

def VIDEO_EXTENSIONS : List String :=
  [".mp4", ".mxf", ".mov", ".avi", ".mkv", ".wmv",
   ".flv", ".webm", ".m4v", ".mpg", ".mpeg", ".3gp",
   ".f4v", ".ogv", ".vob", ".ts", ".m2ts", ".mts"]

def upperStr (s : String) : String := String.mk (s.data.map Char.toUpper)

def lowerStr (s : String) : String := String.mk (s.data.map Char.toLower)

def strEndsWith (s t : String) : Bool := List.isSuffixOf t.data s.data

/-- A path name is matched by the `rglob` pattern pair
`f'*{ext}'` / `f'*{ext.upper()}'` for some allow-listed extension. -/
def matchesExt (name : String) : Bool :=
  VIDEO_EXTENSIONS.any (fun e => strEndsWith name e || strEndsWith name (upperStr e))

/-- `find_video_files`: collect matches, then `sorted(set(video_files))`.
The directory tree is abstracted to the list of path names `rglob`
traverses. -/
def find_video_files (files : List String) : List String :=
  ((files.filter matchesExt).dedup).insertionSort (fun a b : String => a ≤ b)

/- ===== frame classifier (`SlateDetector.is_slate_frame`) ===== -/

structure Frame where
  gray : List Nat
  edges : List Bool
deriving DecidableEq

/-- `hist[:30].sum()` of the normalized histogram: fraction of pixels
with luminance value 0..29. -/
def blackFrac (f : Frame) : ℚ :=
  ((f.gray.countP (fun v => v < 30) : ℕ) : ℚ) / ((f.gray.length : ℕ) : ℚ)

/-- `np.sum(binary == 255) / binary.size` after
`cv2.threshold(gray, 200, 255, THRESH_BINARY)`: fraction of pixels with
luminance strictly above 200. -/
def whiteFrac (f : Frame) : ℚ :=
  ((f.gray.countP (fun v => 200 < v) : ℕ) : ℚ) / ((f.gray.length : ℕ) : ℚ)

/-- `np.sum(edges > 0) / edges.size` for the Canny edge map. -/
def edgeFrac (f : Frame) : ℚ :=
  ((f.edges.count true : ℕ) : ℚ) / ((f.edges.length : ℕ) : ℚ)

/-- The structural gate of `is_slate_frame`:
`black_pixels_ratio > 0.5 and 0.005 < white_pixels_ratio < 0.4`. -/
def structuralGate (f : Frame) : Prop :=
  1/2 < blackFrac f ∧ 1/200 < whiteFrac f ∧ whiteFrac f < 2/5

instance (f : Frame) : Decidable (structuralGate f) :=
  inferInstanceAs (Decidable (1/2 < blackFrac f ∧ 1/200 < whiteFrac f ∧ whiteFrac f < 2/5))

/-- The combined score
`black_pixels_ratio * 0.4 + (1 - abs(white_pixels_ratio - 0.1) * 5) * 0.4
 + edge_ratio * 0.2` computed when the gate passes. -/
def slate_score (f : Frame) : ℚ :=
  blackFrac f * (2/5) + (1 - |whiteFrac f - 1/10| * 5) * (2/5) + edgeFrac f * (1/5)

/-- `is_slate_frame`: `none` models `frame is None`; the confidence of a
gate-passing frame is `min(score, 1.0)` exactly as in the source (there
is no lower clamp in the code). -/
def is_slate_frame (fo : Option Frame) : Bool × ℚ :=
  match fo with
  | none => (false, 0)
  | some f => if structuralGate f then (true, min (slate_score f) 1) else (false, 0)

/- ===== video scanner (frame-selection strategy of
   `SlateDetector.process_video`) ===== -/

structure VideoHandle where
  opened : Bool
  fps0 : ℚ
  total_frames : ℤ
  frame_at : ℤ → Option Frame

/-- `fps = cap.get(cv2.CAP_PROP_FPS) or 30`: Python `or` replaces a zero
fps report by 30. -/
def effFps (h : VideoHandle) : ℚ := if h.fps0 = 0 then 30 else h.fps0

/-- Python `int()` on a float: truncation toward zero. -/
def pyint (q : ℚ) : ℤ := if 0 ≤ q then ⌊q⌋ else ⌈q⌉

structure DetectorCfg where
  frames_to_check : ℤ
  threshold : ℚ
  target_frame : ℤ
  once_per_folder : Bool

/-- `frames_to_check = min(self.frames_to_check, int(fps * 2), total_frames)`,
the bound of the fallback linear scan. -/
def fallbackBound (cfg : DetectorCfg) (h : VideoHandle) : ℤ :=
  min (min cfg.frames_to_check (pyint (effFps h * 2))) h.total_frames

/-- The best-so-far candidate
`(best_slate_frame, best_confidence, best_frame_number)`,
initially `(None, 0.0, -1)`. -/
structure Best where
  frame : Option Frame
  conf : ℚ
  num : ℤ
deriving DecidableEq

/-- `target_frame = min(self.target_frame, total_frames - 1)`. -/
def probeTarget (cfg : DetectorCfg) (h : VideoHandle) : ℤ :=
  min cfg.target_frame (h.total_frames - 1)

/-- Phase (a), the targeted probe: seek to the target frame, read it once
and keep it only `if is_slate and confidence >= self.threshold`. -/
def probeBest (cfg : DetectorCfg) (h : VideoHandle) : Best :=
  if (is_slate_frame (h.frame_at (probeTarget cfg h))).1 = true ∧
      cfg.threshold ≤ (is_slate_frame (h.frame_at (probeTarget cfg h))).2 then
    ⟨h.frame_at (probeTarget cfg h), (is_slate_frame (h.frame_at (probeTarget cfg h))).2,
      probeTarget cfg h⟩
  else ⟨none, 0, -1⟩

/-- Body of the fallback loop: `if is_slate and confidence > best_confidence`
replace the running best (strictly higher confidence only). -/
def stepBest (b : Best) (i : ℤ) (f : Frame) : Best :=
  if (is_slate_frame (some f)).1 = true ∧ b.conf < (is_slate_frame (some f)).2 then
    ⟨some f, (is_slate_frame (some f)).2, i⟩
  else b

/-- Phase (b), the fallback linear scan
`for frame_num in range(frames_to_check)`: sequential reads from frame 0,
breaking on the first failed read (which still counts as one read
attempt).  Returns the final best and the number of read attempts. -/
def scanFrames (h : VideoHandle) : ℕ → ℤ → Best → Best × ℕ
  | 0, _, b => (b, 0)
  | k+1, i, b =>
    match h.frame_at i with
    | none => (b, 1)
    | some f =>
      ((scanFrames h k (i+1) (stepBest b i f)).1,
       (scanFrames h k (i+1) (stepBest b i f)).2 + 1)

/-- The two-phase scan of one opened video: the targeted probe (one read)
followed, only `if best_confidence < self.threshold`, by the fallback
linear scan.  Returns the final best candidate and the total number of
read attempts on the handle. -/
def runScan (cfg : DetectorCfg) (h : VideoHandle) : Best × ℕ :=
  if (probeBest cfg h).conf < cfg.threshold then
    ((scanFrames h (fallbackBound cfg h).toNat 0 (probeBest cfg h)).1,
     1 + (scanFrames h (fallbackBound cfg h).toNat 0 (probeBest cfg h)).2)
  else (probeBest cfg h, 1)

/- ===== per-video unit of work (`SlateDetector.process_video`) ===== -/

structure Video where
  path : String
  rel : String
  folder : String
  handle : VideoHandle

structure VideoResult where
  video_path : String
  slate_found : Bool
  confidence : ℚ
  frame_number : ℤ
  timestamp : Option ℚ
  error : Option String
  png_filename : Option String
deriving DecidableEq

def pad0 (w : ℕ) (s : String) : String :=
  String.mk (List.replicate (w - s.length) '0') ++ s

/-- Python `f"{n:04d}"`: zero-pad to total width 4, sign included. -/
def py04d (n : ℤ) : String :=
  if n < 0 then "-" ++ pad0 3 (toString n.natAbs) else pad0 4 (toString n.natAbs)

/-- `png_filename = f"slate_{video_hash}_{best_frame_number:04d}.png"`. -/
def pngName (hash : String → String) (path : String) (n : ℤ) : String :=
  "slate_" ++ hash path ++ "_" ++ py04d n ++ ".png"

/-- Output of one `process_video` call: the result record, the updated
`saved_folders` state of the callee's detector copy, the instrumented
read count, and the captured `best_slate_frame`. -/
structure PVOut where
  result : VideoResult
  saved_folders : List String
  reads : ℕ
  captured : Option Frame

/-- The result dict as initialized at the top of `process_video`. -/
def initResult (rel : String) : VideoResult := ⟨rel, false, 0, -1, none, none, none⟩

/-- The result fields set when a slate is found with sufficient
confidence, before the persistence step. -/
def foundResult (v : Video) (best : Best) : VideoResult :=
  { initResult v.rel with
    slate_found := true
    confidence := best.conf
    frame_number := best.num
    timestamp := some ((best.num : ℚ) / effFps v.handle) }

/-- The folder dedup decision: in once-per-folder mode return
`should_save = False` for an already-recorded folder, otherwise record it
and return `True`; in always-persist mode always `True` with no
bookkeeping. -/
def dedupDecision (cfg : DetectorCfg) (saved : List String) (folder : String) :
    Bool × List String :=
  if cfg.once_per_folder = true then
    (if folder ∈ saved then (false, saved) else (true, folder :: saved))
  else (true, saved)

/-- Tail of `process_video` after the scan: threshold acceptance, folder
dedup, and the `cv2.imwrite` persistence step (which raises when the
captured frame is `None`, leaving the already-set fields in place and
recording the exception in `error`). -/
def finishVideo (cfg : DetectorCfg) (hash : String → String) (saved : List String)
    (v : Video) (best : Best) (reads : ℕ) : PVOut :=
  if cfg.threshold ≤ best.conf then
    if (dedupDecision cfg saved v.folder).1 = true then
      match best.frame with
      | none =>
        ⟨{ foundResult v best with error := some "imwrite error" },
          (dedupDecision cfg saved v.folder).2, reads, best.frame⟩
      | some _ =>
        ⟨{ foundResult v best with png_filename := some (pngName hash v.path best.num) },
          (dedupDecision cfg saved v.folder).2, reads, best.frame⟩
    else
      ⟨{ foundResult v best with png_filename := none },
        (dedupDecision cfg saved v.folder).2, reads, best.frame⟩
  else ⟨initResult v.rel, saved, reads, best.frame⟩

/-- `SlateDetector.process_video` on one video: open failure yields the
explicit error result; otherwise the two-phase scan runs and
`finishVideo` applies acceptance, dedup and persistence. -/
def process_video (cfg : DetectorCfg) (hash : String → String) (saved : List String)
    (v : Video) : PVOut :=
  if v.handle.opened = true then
    finishVideo cfg hash saved v (runScan cfg v.handle).1 (runScan cfg v.handle).2
  else
    ⟨{ initResult v.rel with error := some "Failed to open video file" }, saved, 0, none⟩

/-- `SlateDetector.process_videos_parallel`: every submitted task runs
`process_video` against its own copy of the submission-time detector
state (process isolation), and one result is collected per video. -/
def process_videos_parallel (cfg : DetectorCfg) (hash : String → String)
    (saved : List String) (videos : List Video) : List VideoResult :=
  videos.map (fun v => (process_video cfg hash saved v).result)

/- ===== result aggregation (`SlateDetector.save_metadata`) ===== -/

structure MapEntry where
  video_path : String
  frame_number : ℤ
  timestamp : Option ℚ
  confidence : ℚ
deriving DecidableEq

/-- `result.get('png_filename')` collapsed to a string:
a missing key and `None` both read back as the empty string. -/
def pngKey (r : VideoResult) : String := r.png_filename.getD ""

/-- Python truthiness of
`result['slate_found'] and result.get('png_filename')`. -/
def pngTruthy (r : VideoResult) : Bool := r.slate_found && decide (pngKey r ≠ "")

def mkEntry (r : VideoResult) : MapEntry :=
  ⟨r.video_path, r.frame_number, r.timestamp, r.confidence⟩

/-- Python dict assignment `mapping[key] = value`: overwrite an existing
key in place, otherwise append (insertion order preserved). -/
def dictInsert (m : List (String × MapEntry)) (k : String) (v : MapEntry) :
    List (String × MapEntry) :=
  if m.any (fun p => p.1 == k) then
    m.map (fun p => if p.1 = k then (k, v) else p)
  else m ++ [(k, v)]

def mapStep (m : List (String × MapEntry)) (r : VideoResult) : List (String × MapEntry) :=
  if pngTruthy r = true then dictInsert m (pngKey r) (mkEntry r) else m

/-- The `slate_mapping.json` table built by `save_metadata`. -/
def build_mapping (results : List VideoResult) : List (String × MapEntry) :=
  results.foldl mapStep []

structure RunMetadata where
  total_videos_scanned : ℕ
  slates_found : ℕ
  videos : List VideoResult
deriving DecidableEq

/-- `save_metadata`: the run metadata record plus the filename mapping. -/
def save_metadata (results : List VideoResult) : RunMetadata × List (String × MapEntry) :=
  (⟨results.length, results.countP (fun r => r.slate_found), results⟩,
   build_mapping results)

/- ===== concrete fixtures used by witnesses and counterexamples ===== -/

/-- A 10-pixel slate-like frame: black fraction 6/10, white fraction
1/10 (the optimum), no edges; its confidence is 16/25. -/
def slateFrame10 : Frame :=
  ⟨[0, 0, 0, 0, 0, 0, 255, 100, 100, 100],
   [false, false, false, false, false, false, false, false, false, false]⟩

/-- A uniformly pure-black 10-pixel frame. -/
def blackFrame : Frame :=
  ⟨[0, 0, 0, 0, 0, 0, 0, 0, 0, 0],
   [false, false, false, false, false, false, false, false, false, false]⟩

/-- A 5-frame handle whose frame 0 is `slateFrame10` and whose other
reads fail. -/
def slateHandle : VideoHandle :=
  ⟨true, 30, 5, fun i => if i = 0 then some slateFrame10 else none⟩

/-- A 2-frame handle of pure-black frames. -/
def blackHandle : VideoHandle :=
  ⟨true, 30, 2, fun i => if 0 ≤ i ∧ i < 2 then some blackFrame else none⟩

/-- An opened handle all of whose reads fail. -/
def deadHandle : VideoHandle := ⟨true, 30, 5, fun _ => none⟩

/-- A handle that fails to open. -/
def unopenedHandle : VideoHandle := ⟨false, 30, 5, fun _ => none⟩

def cfgProbe : DetectorCfg := ⟨60, 1/2, 0, false⟩

def cfgLinear : DetectorCfg := ⟨2, 4/5, 0, false⟩

def cfgOnce : DetectorCfg := ⟨60, 1/2, 0, true⟩

def cfgZero : DetectorCfg := ⟨60, 0, 0, false⟩

def vSlate : Video := ⟨"in/a.mp4", "a.mp4", "in", slateHandle⟩

def vLinear : Video := ⟨"in/b.mp4", "b.mp4", "in", blackHandle⟩

def vA : Video := ⟨"in/A/x.mp4", "A/x.mp4", "in/A", slateHandle⟩

def vB : Video := ⟨"in/A/y.mp4", "A/y.mp4", "in/A", slateHandle⟩

def vDead : Video := ⟨"in/d.mp4", "d.mp4", "in", unopenedHandle⟩

def vNoRead : Video := ⟨"in/e.mp4", "e.mp4", "in", deadHandle⟩

def rDup : VideoResult := ⟨"v.mp4", true, 1, 0, some 0, none, some "a.png"⟩

def rGood : VideoResult := ⟨"w.mp4", true, 9/10, 3, some (1/10), none, some "b.png"⟩

/-- Invariant of the best-so-far candidate: it is either still the
initial sentinel `(None, 0.0, -1)`, or it holds a frame actually read
from the handle at its recorded index, classified as a slate with the
recorded confidence. -/
def goodBest (h : VideoHandle) (b : Best) : Prop :=
  (b.frame = none ∧ b.conf = 0) ∨
    ∃ f, h.frame_at b.num = some f ∧ b.frame = some f ∧
      (is_slate_frame (some f)).1 = true ∧ (is_slate_frame (some f)).2 = b.conf

/- ===== helper lemmas: classifier ===== -/

lemma edgeFrac_nonneg (f : Frame) : 0 ≤ edgeFrac f := by
  unfold edgeFrac; positivity

/-- If the structural gate passes then the combined score is strictly
positive: the gate bounds `1/2 < black` and `|white - 1/10| < 3/10`
dominate the worst case of the middle term. -/
lemma gate_score_pos (f : Frame) (hg : structuralGate f) : 0 < slate_score f := by
  obtain ⟨h1, h2, h3⟩ := hg
  have he := edgeFrac_nonneg f
  unfold slate_score
  rcases abs_cases (whiteFrac f - 1/10) with ⟨h4, h5⟩ | ⟨h4, h5⟩ <;> rw [h4] <;> nlinarith

lemma blackFrac_slate : blackFrac slateFrame10 = 3/5 := by
  norm_num [blackFrac, slateFrame10]

lemma whiteFrac_slate : whiteFrac slateFrame10 = 1/10 := by
  norm_num [whiteFrac, slateFrame10]

lemma edgeFrac_slate : edgeFrac slateFrame10 = 0 := by
  norm_num [edgeFrac, slateFrame10]

lemma gate_slate : structuralGate slateFrame10 := by
  unfold structuralGate
  rw [blackFrac_slate, whiteFrac_slate]
  norm_num

lemma score_slate : slate_score slateFrame10 = 16/25 := by
  unfold slate_score
  rw [blackFrac_slate, whiteFrac_slate, edgeFrac_slate]
  norm_num

lemma classify_slate : is_slate_frame (some slateFrame10) = (true, 16/25) := by
  have h1 : is_slate_frame (some slateFrame10) =
      (true, min (slate_score slateFrame10) 1) := by
    simp [is_slate_frame, gate_slate]
  rw [h1, score_slate]
  norm_num

lemma classify_black : is_slate_frame (some blackFrame) = (false, 0) := by
  have hng : ¬ structuralGate blackFrame := by
    intro hg
    obtain ⟨-, h2, -⟩ := hg
    have hw0 : whiteFrac blackFrame = 0 := by norm_num [whiteFrac, blackFrame]
    rw [hw0] at h2
    norm_num at h2
  simp [is_slate_frame, hng]

/- ===== claims about the frame classifier (C1, C5, C8) ===== -/

/-- C1: for every input frame the confidence returned by
`is_slate_frame` lies in `[0,1]`, and it is `0` exactly when the
structural gate fails (`is_slate = false`); when the gate passes the
confidence is in `[0,1]` even though the code clamps only from above,
because a gate-passing score is strictly positive. -/
theorem c1_confidence_unit_interval (fo : Option Frame) :
    0 ≤ (is_slate_frame fo).2 ∧ (is_slate_frame fo).2 ≤ 1 ∧
      ((is_slate_frame fo).2 = 0 ↔ (is_slate_frame fo).1 = false) := by
  cases fo with
  | none =>
    refine ⟨le_refl 0, ?_, ?_⟩ <;> simp [is_slate_frame]
  | some f =>
    by_cases hg : structuralGate f
    · have hpos : 0 < min (slate_score f) 1 := lt_min (gate_score_pos f hg) one_pos
      have h1 : is_slate_frame (some f) = (true, min (slate_score f) 1) := by
        simp [is_slate_frame, hg]
      rw [h1]
      refine ⟨le_of_lt hpos, min_le_right _ _, ?_, ?_⟩
      · intro h0
        rw [show ((true, min (slate_score f) 1) : Bool × ℚ).2 = min (slate_score f) 1 from rfl] at h0
        rw [h0] at hpos
        exact absurd hpos (lt_irrefl 0)
      · intro h
        simp at h
    · have h1 : is_slate_frame (some f) = (false, 0) := by simp [is_slate_frame, hg]
      rw [h1]
      norm_num

/-- Witness for C1 at a concrete frame. -/
theorem c1_confidence_witness :
    0 ≤ (is_slate_frame (some blackFrame)).2 ∧ (is_slate_frame (some blackFrame)).2 ≤ 1 ∧
      ((is_slate_frame (some blackFrame)).2 = 0 ↔ (is_slate_frame (some blackFrame)).1 = false) :=
  c1_confidence_unit_interval (some blackFrame)

/-- C5 counterexample (negation of the claim): there is no frame that
passes the structural gate, has a negative pre-clamp score and is
returned with confidence exactly `0` while `is_slate` is true.  The gate
bounds make the score strictly positive, so the scenario the claim
asserts cannot occur in the code. -/
theorem c5_no_negative_score_when_gate_passes :
    ¬ ∃ f : Frame, structuralGate f ∧ slate_score f < 0 ∧
        (is_slate_frame (some f)).1 = true ∧ (is_slate_frame (some f)).2 = 0 := by
  rintro ⟨f, hg, hneg, -, -⟩
  exact absurd hneg (not_lt.mpr (le_of_lt (gate_score_pos f hg)))

/-- C5 amended: whenever the structural gate passes, the pre-clamp score
is strictly positive (it cannot go negative), the code applies only the
upper clamp `min(score, 1.0)`, and the returned confidence is strictly
positive with `is_slate = true`. -/
theorem c5_gate_positive_confidence (f : Frame) (hg : structuralGate f) :
    0 < slate_score f ∧ (is_slate_frame (some f)).1 = true ∧
      (is_slate_frame (some f)).2 = min (slate_score f) 1 ∧
      0 < (is_slate_frame (some f)).2 := by
  have h1 : is_slate_frame (some f) = (true, min (slate_score f) 1) := by
    simp [is_slate_frame, hg]
  refine ⟨gate_score_pos f hg, by rw [h1], by rw [h1], ?_⟩
  rw [h1]
  exact lt_min (gate_score_pos f hg) one_pos

/-- Witness for the amended C5 at a concrete gate-passing frame. -/
theorem c5_gate_positive_witness :
    0 < slate_score slateFrame10 ∧ (is_slate_frame (some slateFrame10)).1 = true ∧
      (is_slate_frame (some slateFrame10)).2 = min (slate_score slateFrame10) 1 ∧
      0 < (is_slate_frame (some slateFrame10)).2 :=
  c5_gate_positive_confidence slateFrame10 gate_slate

/-- C8: a uniformly colored frame (all pixels pure black, or all pixels
pure white) fails the structural gate and is classified
`(is_slate = false, confidence = 0)`. -/
theorem c8_uniform_frames_rejected (f : Frame)
    (hu : (∀ v ∈ f.gray, v = 0) ∨ (∀ v ∈ f.gray, v = 255)) :
    is_slate_frame (some f) = (false, 0) := by
  have hng : ¬ structuralGate f := by
    rcases hu with hb | hw
    · intro hg
      obtain ⟨-, h2, -⟩ := hg
      have h0 : f.gray.countP (fun v => 200 < v) = 0 := by
        rw [List.countP_eq_zero]
        intro a ha
        simp [hb a ha]
      have hw0 : whiteFrac f = 0 := by unfold whiteFrac; rw [h0]; norm_num
      rw [hw0] at h2
      norm_num at h2
    · intro hg
      obtain ⟨h1, -, -⟩ := hg
      have h0 : f.gray.countP (fun v => v < 30) = 0 := by
        rw [List.countP_eq_zero]
        intro a ha
        simp [hw a ha]
      have hb0 : blackFrac f = 0 := by unfold blackFrac; rw [h0]; norm_num
      rw [hb0] at h1
      norm_num at h1
  simp [is_slate_frame, hng]

/-- Witness for C8 at the concrete pure-black frame. -/
theorem c8_uniform_witness : is_slate_frame (some blackFrame) = (false, 0) :=
  c8_uniform_frames_rejected blackFrame (Or.inl (by decide))

/- ===== helper lemmas: scanner ===== -/

lemma scanFrames_reads_le (h : VideoHandle) :
    ∀ (k : ℕ) (i : ℤ) (b : Best), (scanFrames h k i b).2 ≤ k := by
  intro k
  induction k with
  | zero => intro i b; simp [scanFrames]
  | succ n ih =>
    intro i b
    cases hf : h.frame_at i with
    | none => simp [scanFrames, hf]
    | some f =>
      have := ih (i + 1) (stepBest b i f)
      simp only [scanFrames, hf]
      omega

lemma stepBest_good (h : VideoHandle) (b : Best) (i : ℤ) (f : Frame)
    (hf : h.frame_at i = some f) (hb : goodBest h b) : goodBest h (stepBest b i f) := by
  by_cases hc : (is_slate_frame (some f)).1 = true ∧ b.conf < (is_slate_frame (some f)).2
  · unfold stepBest
    rw [if_pos hc]
    right
    exact ⟨f, hf, rfl, hc.1, rfl⟩
  · unfold stepBest
    rw [if_neg hc]
    exact hb

lemma stepBest_not_slate (b : Best) (i : ℤ) (f : Frame)
    (hns : (is_slate_frame (some f)).1 = false) : stepBest b i f = b := by
  unfold stepBest
  rw [if_neg]
  intro hc
  rw [hns] at hc
  exact absurd hc.1 (by simp)

lemma scanFrames_good (h : VideoHandle) :
    ∀ (k : ℕ) (i : ℤ) (b : Best), goodBest h b → goodBest h (scanFrames h k i b).1 := by
  intro k
  induction k with
  | zero => intro i b hb; simpa [scanFrames] using hb
  | succ n ih =>
    intro i b hb
    cases hf : h.frame_at i with
    | none => simpa [scanFrames, hf] using hb
    | some f =>
      have heq : (scanFrames h (n + 1) i b).1 = (scanFrames h n (i + 1) (stepBest b i f)).1 := by
        simp [scanFrames, hf]
      rw [heq]
      exact ih (i + 1) _ (stepBest_good h b i f hf hb)

lemma probeBest_good (cfg : DetectorCfg) (h : VideoHandle) : goodBest h (probeBest cfg h) := by
  by_cases hc : (is_slate_frame (h.frame_at (probeTarget cfg h))).1 = true ∧
      cfg.threshold ≤ (is_slate_frame (h.frame_at (probeTarget cfg h))).2
  · unfold probeBest
    rw [if_pos hc]
    cases hf : h.frame_at (probeTarget cfg h) with
    | none =>
      rw [hf] at hc
      exact absurd hc.1 (by simp [is_slate_frame])
    | some f =>
      right
      refine ⟨f, hf, rfl, ?_, rfl⟩
      rw [hf] at hc
      exact hc.1
  · unfold probeBest
    rw [if_neg hc]
    left
    exact ⟨rfl, rfl⟩

lemma runScan_good (cfg : DetectorCfg) (h : VideoHandle) : goodBest h (runScan cfg h).1 := by
  unfold runScan
  split
  · exact scanFrames_good h _ 0 _ (probeBest_good cfg h)
  · exact probeBest_good cfg h

lemma runScan_reads_le (cfg : DetectorCfg) (h : VideoHandle) :
    (runScan cfg h).2 ≤ 1 + (fallbackBound cfg h).toNat := by
  unfold runScan
  split
  · have := scanFrames_reads_le h (fallbackBound cfg h).toNat 0 (probeBest cfg h)
    show 1 + (scanFrames h (fallbackBound cfg h).toNat 0 (probeBest cfg h)).2 ≤
      1 + (fallbackBound cfg h).toNat
    omega
  · show (1 : ℕ) ≤ 1 + (fallbackBound cfg h).toNat
    omega

/- ===== helper lemmas: process_video ===== -/

lemma finishVideo_reads (cfg : DetectorCfg) (hash : String → String) (saved : List String)
    (v : Video) (best : Best) (reads : ℕ) :
    (finishVideo cfg hash saved v best reads).reads = reads := by
  unfold finishVideo
  split
  · split
    · split <;> rfl
    · rfl
  · rfl

lemma finishVideo_found (cfg : DetectorCfg) (hash : String → String) (saved : List String)
    (v : Video) (best : Best) (reads : ℕ) (h : cfg.threshold ≤ best.conf) :
    (finishVideo cfg hash saved v best reads).result.slate_found = true ∧
    (finishVideo cfg hash saved v best reads).result.confidence = best.conf ∧
    (finishVideo cfg hash saved v best reads).result.frame_number = best.num ∧
    (finishVideo cfg hash saved v best reads).captured = best.frame := by
  unfold finishVideo
  rw [if_pos h]
  split
  · split <;> exact ⟨rfl, rfl, rfl, rfl⟩
  · exact ⟨rfl, rfl, rfl, rfl⟩

lemma finishVideo_not_found (cfg : DetectorCfg) (hash : String → String) (saved : List String)
    (v : Video) (best : Best) (reads : ℕ) (h : ¬ cfg.threshold ≤ best.conf) :
    (finishVideo cfg hash saved v best reads).result = initResult v.rel ∧
    (finishVideo cfg hash saved v best reads).captured = best.frame := by
  unfold finishVideo
  rw [if_neg h]
  exact ⟨rfl, rfl⟩

lemma finishVideo_error (cfg : DetectorCfg) (hash : String → String) (saved : List String)
    (v : Video) (best : Best) (reads : ℕ)
    (h : (finishVideo cfg hash saved v best reads).result.error ≠ none) :
    cfg.threshold ≤ best.conf ∧ best.frame = none ∧
      (finishVideo cfg hash saved v best reads).result.png_filename = none ∧
      (finishVideo cfg hash saved v best reads).result.slate_found = true := by
  by_cases h1 : cfg.threshold ≤ best.conf
  · unfold finishVideo at h ⊢
    rw [if_pos h1] at h ⊢
    by_cases h2 : (dedupDecision cfg saved v.folder).1 = true
    · rw [if_pos h2] at h ⊢
      cases hb : best.frame with
      | none => exact ⟨h1, rfl, rfl, rfl⟩
      | some f =>
        exfalso
        rw [hb] at h
        exact h rfl
    · rw [if_neg h2] at h
      exact absurd rfl h
  · exfalso
    unfold finishVideo at h
    rw [if_neg h1] at h
    exact h rfl

lemma process_video_opened (cfg : DetectorCfg) (hash : String → String)
    (saved : List String) (v : Video) (hop : v.handle.opened = true) :
    process_video cfg hash saved v =
      finishVideo cfg hash saved v (runScan cfg v.handle).1 (runScan cfg v.handle).2 := by
  unfold process_video
  rw [if_pos hop]

lemma process_video_unopened (cfg : DetectorCfg) (hash : String → String)
    (saved : List String) (v : Video) (hop : ¬ v.handle.opened = true) :
    process_video cfg hash saved v =
      ⟨{ initResult v.rel with error := some "Failed to open video file" }, saved, 0, none⟩ := by
  unfold process_video
  rw [if_neg hop]

/- ===== evaluation lemmas for the concrete fixtures ===== -/

lemma probeBest_linear : probeBest cfgLinear blackHandle = ⟨none, 0, -1⟩ := by
  have hf : blackHandle.frame_at (probeTarget cfgLinear blackHandle) = some blackFrame := by
    decide
  unfold probeBest
  rw [hf, classify_black]
  rw [if_neg]
  intro hc
  exact absurd hc.1 (by simp)

lemma fallbackBound_linear : fallbackBound cfgLinear blackHandle = 2 := by
  have h1 : effFps blackHandle = 30 := by norm_num [effFps, blackHandle]
  have h2 : pyint ((30 : ℚ) * 2) = 60 := by norm_num [pyint]
  unfold fallbackBound
  rw [h1, h2]
  decide

lemma scan_linear : scanFrames blackHandle 2 0 ⟨none, 0, -1⟩ = (⟨none, 0, -1⟩, 2) := by
  have hf0 : blackHandle.frame_at 0 = some blackFrame := by decide
  have hf1 : blackHandle.frame_at 1 = some blackFrame := by decide
  have hstep : ∀ i : ℤ, stepBest ⟨none, 0, -1⟩ i blackFrame = ⟨none, 0, -1⟩ := fun i =>
    stepBest_not_slate _ i _ (by rw [classify_black])
  simp [scanFrames, hf0, hf1, hstep]

lemma runScan_linear : runScan cfgLinear blackHandle = (⟨none, 0, -1⟩, 3) := by
  unfold runScan
  rw [probeBest_linear, fallbackBound_linear]
  rw [if_pos (show (Best.mk none 0 (-1)).conf < cfgLinear.threshold by norm_num [cfgLinear])]
  rw [show ((2 : ℤ)).toNat = 2 from rfl, scan_linear]
  rfl

lemma threshold_le_slate_conf : cfgProbe.threshold ≤ (is_slate_frame (some slateFrame10)).2 := by
  rw [classify_slate]
  norm_num [cfgProbe]

/- ===== claims about the video scanner (C3, C4) ===== -/

/-- C3 counterexample: on a 2-frame video (fps 30) with
`frames_to_check = 2` and `target_frame_index = 0`, the scanner performs
3 reads (the targeted-probe read plus the 2 fallback reads), exceeding
the claimed bound
`max(target_frame_index + 1, min(frames_to_check, 2*fps, total_frames)) = 2`. -/
theorem c3_probe_read_exceeds_bound :
    ¬ ((process_video cfgLinear (fun s => s) [] vLinear).reads ≤
        max ((0 : ℕ) + 1) (min 2 (min (2 * 30) 2))) := by
  have h : (process_video cfgLinear (fun s => s) [] vLinear).reads = 3 := by
    rw [process_video_opened cfgLinear (fun s => s) [] vLinear rfl, finishVideo_reads]
    rw [show vLinear.handle = blackHandle from rfl, runScan_linear]
  rw [h]
  decide

/-- C3 amended: one invocation of the scanner performs at most
`1 + min(frames_to_check, int(2*fps), total_frames)` frame reads on the
handle — the targeted-probe read plus at most the fallback-scan bound
(the claimed bound omitted the extra probe read). -/
theorem c3_read_bound (cfg : DetectorCfg) (hash : String → String)
    (saved : List String) (v : Video) :
    (process_video cfg hash saved v).reads ≤ 1 + (fallbackBound cfg v.handle).toNat := by
  by_cases hop : v.handle.opened = true
  · rw [process_video_opened cfg hash saved v hop, finishVideo_reads]
    exact runScan_reads_le cfg v.handle
  · rw [process_video_unopened cfg hash saved v hop]
    exact Nat.zero_le _

/-- C4: if the targeted probe frame is classified as a slate with
confidence at or above the threshold, the scanner reads exactly one
frame (no fallback reads) and the result carries that frame's index and
confidence. -/
theorem c4_probe_short_circuit (cfg : DetectorCfg) (hash : String → String)
    (saved : List String) (v : Video) (f : Frame)
    (hop : v.handle.opened = true)
    (hf : v.handle.frame_at (probeTarget cfg v.handle) = some f)
    (hs : (is_slate_frame (some f)).1 = true)
    (hc : cfg.threshold ≤ (is_slate_frame (some f)).2) :
    (process_video cfg hash saved v).reads = 1 ∧
    (process_video cfg hash saved v).result.slate_found = true ∧
    (process_video cfg hash saved v).result.confidence = (is_slate_frame (some f)).2 ∧
    (process_video cfg hash saved v).result.frame_number = probeTarget cfg v.handle := by
  have hpb : probeBest cfg v.handle =
      ⟨some f, (is_slate_frame (some f)).2, probeTarget cfg v.handle⟩ := by
    unfold probeBest
    rw [hf]
    rw [if_pos ⟨hs, hc⟩]
  have hnl : ¬ ((Best.mk (some f) (is_slate_frame (some f)).2
      (probeTarget cfg v.handle)).conf < cfg.threshold) := not_lt.mpr hc
  have hrs : runScan cfg v.handle =
      (⟨some f, (is_slate_frame (some f)).2, probeTarget cfg v.handle⟩, 1) := by
    unfold runScan
    rw [hpb]
    rw [if_neg hnl]
  have hthr : cfg.threshold ≤ (runScan cfg v.handle).1.conf := by
    rw [hrs]
    exact hc
  have hfound := finishVideo_found cfg hash saved v (runScan cfg v.handle).1
    (runScan cfg v.handle).2 hthr
  refine ⟨?_, ?_, ?_, ?_⟩
  · rw [process_video_opened cfg hash saved v hop, finishVideo_reads, hrs]
  · rw [process_video_opened cfg hash saved v hop]
    exact hfound.1
  · rw [process_video_opened cfg hash saved v hop]
    rw [hfound.2.1, hrs]
  · rw [process_video_opened cfg hash saved v hop]
    rw [hfound.2.2.1, hrs]

/-- Witness for C4: with threshold 1/2 and target frame 0 on the
concrete slate video, exactly one read happens and the probe frame is
accepted. -/
theorem c4_probe_short_circuit_witness :
    (process_video cfgProbe (fun s => s) [] vSlate).reads = 1 ∧
    (process_video cfgProbe (fun s => s) [] vSlate).result.slate_found = true ∧
    (process_video cfgProbe (fun s => s) [] vSlate).result.confidence =
      (is_slate_frame (some slateFrame10)).2 ∧
    (process_video cfgProbe (fun s => s) [] vSlate).result.frame_number =
      probeTarget cfgProbe vSlate.handle :=
  c4_probe_short_circuit cfgProbe (fun s => s) [] vSlate slateFrame10 rfl (by decide)
    (by rw [classify_slate]) threshold_le_slate_conf

lemma finishVideo_none_frame (cfg : DetectorCfg) (hash : String → String)
    (saved : List String) (v : Video) (best : Best) (reads : ℕ)
    (h1 : cfg.threshold ≤ best.conf) (hfr : best.frame = none)
    (h2 : (dedupDecision cfg saved v.folder).1 = true) :
    (finishVideo cfg hash saved v best reads).result.error = some "imwrite error" ∧
    (finishVideo cfg hash saved v best reads).result.png_filename = none := by
  unfold finishVideo
  rw [if_pos h1, if_pos h2, hfr]
  exact ⟨rfl, rfl⟩

/- ===== claims C10 and C6 (threshold-sign safety, failure localization) ===== -/

/-- C10: for a successfully opened video (with well-formed reads failing
at negative positions): with a positive threshold, `slate_found = true`
implies some actually-read frame passed the gate with confidence at or
above the threshold, the reported frame number is nonnegative and the
captured frame is available to persist; with threshold at most 0 and a
probe frame not classified as a slate, the scan still reports
`slate_found = true` with `frame_number = -1` and no captured frame, so
(in always-persist mode) the image-save step runs with no frame, fails,
and leaves a non-null `error` with no persisted filename. -/
theorem c10_threshold_sign_behavior (cfg : DetectorCfg) (hash : String → String)
    (saved : List String) (v : Video)
    (hop : v.handle.opened = true)
    (hwf : ∀ i : ℤ, i < 0 → v.handle.frame_at i = none) :
    (0 < cfg.threshold →
      (process_video cfg hash saved v).result.slate_found = true →
      ∃ f : Frame,
        v.handle.frame_at (process_video cfg hash saved v).result.frame_number = some f ∧
        (is_slate_frame (some f)).1 = true ∧
        (is_slate_frame (some f)).2 = (process_video cfg hash saved v).result.confidence ∧
        cfg.threshold ≤ (process_video cfg hash saved v).result.confidence ∧
        0 ≤ (process_video cfg hash saved v).result.frame_number ∧
        (process_video cfg hash saved v).captured = some f) ∧
    (cfg.threshold ≤ 0 →
      (is_slate_frame (v.handle.frame_at (probeTarget cfg v.handle))).1 = false →
      cfg.once_per_folder = false →
      (process_video cfg hash saved v).result.slate_found = true ∧
      (process_video cfg hash saved v).result.frame_number = -1 ∧
      (process_video cfg hash saved v).captured = none ∧
      (process_video cfg hash saved v).result.error ≠ none ∧
      (process_video cfg hash saved v).result.png_filename = none) := by
  constructor
  · intro hthr hfound
    rw [process_video_opened cfg hash saved v hop] at hfound ⊢
    by_cases hge : cfg.threshold ≤ (runScan cfg v.handle).1.conf
    · have hgb := runScan_good cfg v.handle
      rcases hgb with ⟨hfn, hc0⟩ | ⟨f, hfa, hbf, hsl, hcf⟩
      · exfalso
        rw [hc0] at hge
        linarith
      · have hfd := finishVideo_found cfg hash saved v (runScan cfg v.handle).1 (runScan cfg v.handle).2 hge
        refine ⟨f, ?_, hsl, ?_, ?_, ?_, ?_⟩
        · rw [hfd.2.2.1]
          exact hfa
        · rw [hfd.2.1]
          exact hcf
        · rw [hfd.2.1]
          exact hge
        · rw [hfd.2.2.1]
          by_contra hneg
          push_neg at hneg
          have hnone := hwf _ hneg
          rw [hnone] at hfa
          exact Option.noConfusion hfa
        · rw [hfd.2.2.2]
          exact hbf
    · exfalso
      have hnf := (finishVideo_not_found cfg hash saved v (runScan cfg v.handle).1 (runScan cfg v.handle).2 hge).1
      rw [hnf] at hfound
      simp [initResult] at hfound
  · intro hle hnp honce
    have hpb : probeBest cfg v.handle = ⟨none, 0, -1⟩ := by
      unfold probeBest
      rw [if_neg]
      intro hc
      rw [hnp] at hc
      exact absurd hc.1 (by simp)
    have hns : ¬ ((Best.mk none 0 (-1)).conf < cfg.threshold) := by
      show ¬ ((0 : ℚ) < cfg.threshold)
      exact not_lt.mpr hle
    have hrs : runScan cfg v.handle = (⟨none, 0, -1⟩, 1) := by
      unfold runScan
      rw [hpb]
      rw [if_neg hns]
    rw [process_video_opened cfg hash saved v hop]
    have hge : cfg.threshold ≤ (runScan cfg v.handle).1.conf := by
      rw [hrs]
      exact hle
    have hfr : (runScan cfg v.handle).1.frame = none := by rw [hrs]
    have hdd : (dedupDecision cfg saved v.folder).1 = true := by
      unfold dedupDecision
      rw [if_neg (by simp [honce])]
    have hfd := finishVideo_found cfg hash saved v (runScan cfg v.handle).1 (runScan cfg v.handle).2 hge
    have hnf := finishVideo_none_frame cfg hash saved v (runScan cfg v.handle).1 (runScan cfg v.handle).2 hge hfr hdd
    refine ⟨hfd.1, ?_, ?_, ?_, hnf.2⟩
    · rw [hfd.2.2.1, hrs]
    · rw [hfd.2.2.2, hrs]
    · rw [hnf.1]
      simp

/-- Witness for C10 on the concrete slate video with threshold 1/2. -/
theorem c10_threshold_witness :
    (0 < cfgProbe.threshold →
      (process_video cfgProbe (fun s => s) [] vSlate).result.slate_found = true →
      ∃ f : Frame,
        vSlate.handle.frame_at
            (process_video cfgProbe (fun s => s) [] vSlate).result.frame_number = some f ∧
        (is_slate_frame (some f)).1 = true ∧
        (is_slate_frame (some f)).2 =
          (process_video cfgProbe (fun s => s) [] vSlate).result.confidence ∧
        cfgProbe.threshold ≤ (process_video cfgProbe (fun s => s) [] vSlate).result.confidence ∧
        0 ≤ (process_video cfgProbe (fun s => s) [] vSlate).result.frame_number ∧
        (process_video cfgProbe (fun s => s) [] vSlate).captured = some f) ∧
    (cfgProbe.threshold ≤ 0 →
      (is_slate_frame (vSlate.handle.frame_at (probeTarget cfgProbe vSlate.handle))).1 = false →
      cfgProbe.once_per_folder = false →
      (process_video cfgProbe (fun s => s) [] vSlate).result.slate_found = true ∧
      (process_video cfgProbe (fun s => s) [] vSlate).result.frame_number = -1 ∧
      (process_video cfgProbe (fun s => s) [] vSlate).captured = none ∧
      (process_video cfgProbe (fun s => s) [] vSlate).result.error ≠ none ∧
      (process_video cfgProbe (fun s => s) [] vSlate).result.png_filename = none) :=
  c10_threshold_sign_behavior cfgProbe (fun s => s) [] vSlate rfl
    (by
      intro i hi
      show (if i = 0 then some slateFrame10 else none) = none
      rw [if_neg (by omega)])

/-- C6 counterexample: with threshold 0 and an opened video whose reads
all fail, the `imwrite(None)` exception is recorded in `error` while
`slate_found` remains `true` — contradicting the claim that a worker
failure always yields `slate_found = false`. -/
theorem c6_error_with_slate_found_true :
    (process_video cfgZero (fun s => s) [] vNoRead).result.error ≠ none ∧
    (process_video cfgZero (fun s => s) [] vNoRead).result.slate_found = true := by
  decide

/-- C6 amended: the run is never aborted (one result per video), and a
per-video failure is recorded in a non-null `error` field with
`slate_found = false` — except when the exception strikes the
image-persistence step after a slate was already accepted, which can
only happen with a nonpositive threshold and leaves no persisted
filename. -/
theorem c6_failures_localized (cfg : DetectorCfg) (hash : String → String)
    (saved : List String) (videos : List Video) :
    (process_videos_parallel cfg hash saved videos).length = videos.length ∧
    ∀ v : Video, (process_video cfg hash saved v).result.error ≠ none →
      ((process_video cfg hash saved v).result.slate_found = false ∨
        (cfg.threshold ≤ 0 ∧ (process_video cfg hash saved v).result.png_filename = none)) := by
  constructor
  · simp [process_videos_parallel]
  · intro v herr
    by_cases hop : v.handle.opened = true
    · rw [process_video_opened cfg hash saved v hop] at herr ⊢
      obtain ⟨hth, hfn, hpng, -⟩ := finishVideo_error cfg hash saved v _ _ herr
      right
      refine ⟨?_, hpng⟩
      have hgb := runScan_good cfg v.handle
      rcases hgb with ⟨-, hc0⟩ | ⟨f, -, hbf, -, -⟩
      · rw [hc0] at hth
        exact hth
      · rw [hbf] at hfn
        exact absurd hfn (by simp)
    · left
      rw [process_video_unopened cfg hash saved v hop]
      rfl

/-- Witness for the amended C6 at a video that fails to open. -/
theorem c6_failures_witness :
    (process_videos_parallel cfgLinear (fun s => s) [] [vDead]).length = [vDead].length ∧
    ((process_video cfgLinear (fun s => s) [] vDead).result.slate_found = false ∨
      (cfgLinear.threshold ≤ 0 ∧
        (process_video cfgLinear (fun s => s) [] vDead).result.png_filename = none)) :=
  ⟨(c6_failures_localized cfgLinear (fun s => s) [] [vDead]).1,
   (c6_failures_localized cfgLinear (fun s => s) [] [vDead]).2 vDead (by decide)⟩

lemma finishVideo_some_frame (cfg : DetectorCfg) (hash : String → String)
    (saved : List String) (v : Video) (best : Best) (reads : ℕ)
    (h1 : cfg.threshold ≤ best.conf) (f : Frame) (hfr : best.frame = some f)
    (h2 : (dedupDecision cfg saved v.folder).1 = true) :
    (finishVideo cfg hash saved v best reads).result.png_filename =
      some (pngName hash v.path best.num) := by
  unfold finishVideo
  rw [if_pos h1, if_pos h2, hfr]

lemma probeBest_once : probeBest cfgOnce slateHandle = ⟨some slateFrame10, 16/25, 0⟩ := by
  have hf : slateHandle.frame_at (probeTarget cfgOnce slateHandle) = some slateFrame10 := by
    decide
  have ht : probeTarget cfgOnce slateHandle = 0 := by decide
  unfold probeBest
  rw [hf, classify_slate, ht]
  rw [if_pos ⟨rfl, by norm_num [cfgOnce]⟩]

lemma runScan_once : runScan cfgOnce slateHandle = (⟨some slateFrame10, 16/25, 0⟩, 1) := by
  unfold runScan
  rw [probeBest_once]
  rw [if_neg (show ¬ ((Best.mk (some slateFrame10) (16/25) 0).conf < cfgOnce.threshold) by
    norm_num [cfgOnce])]

lemma process_video_once_slate (v : Video) (hv : v.handle = slateHandle) :
    (process_video cfgOnce (fun s => s) [] v).result.slate_found = true ∧
    (process_video cfgOnce (fun s => s) [] v).result.png_filename.isSome = true := by
  have hop : v.handle.opened = true := by
    rw [hv]
    rfl
  have hge : cfgOnce.threshold ≤ (runScan cfgOnce v.handle).1.conf := by
    rw [hv, runScan_once]
    norm_num [cfgOnce]
  have hfr : (runScan cfgOnce v.handle).1.frame = some slateFrame10 := by
    rw [hv, runScan_once]
  have hdd : (dedupDecision cfgOnce [] v.folder).1 = true := by
    simp [dedupDecision, cfgOnce]
  rw [process_video_opened cfgOnce (fun s => s) [] v hop]
  refine ⟨(finishVideo_found cfgOnce (fun s => s) [] v (runScan cfgOnce v.handle).1
    (runScan cfgOnce v.handle).2 hge).1, ?_⟩
  rw [finishVideo_some_frame cfgOnce (fun s => s) [] v (runScan cfgOnce v.handle).1
    (runScan cfgOnce v.handle).2 hge slateFrame10 hfr hdd]
  rfl

/- ===== claim C2 (once-per-folder dedup across the parallel run) ===== -/

/-- C2, evaluated at the failing input: in once-per-folder mode, two
videos of the same folder that are both classified as slates BOTH obtain
a persisted (non-null) PNG filename when run through the parallel
orchestrator, because every task runs against its own copy of the
initially-empty `saved_folders` state; the claim (and the script's own
`--once` help text) say exactly one of them should persist. -/
theorem c2_once_mode_parallel_saves_both :
    (process_videos_parallel cfgOnce (fun s => s) [] [vA, vB]).map
        (fun r => (r.slate_found, r.png_filename.isSome)) = [(true, true), (true, true)] := by
  have hA := process_video_once_slate vA rfl
  have hB := process_video_once_slate vB rfl
  unfold process_videos_parallel
  simp [hA.1, hA.2, hB.1, hB.2]

/- ===== helper lemmas: mapping table ===== -/

lemma keys_dictInsert (m : List (String × MapEntry)) (k : String) (e : MapEntry) (x : String) :
    x ∈ (dictInsert m k e).map Prod.fst ↔ x ∈ m.map Prod.fst ∨ x = k := by
  unfold dictInsert
  by_cases hany : (m.any fun p => p.1 == k) = true
  · rw [if_pos hany]
    have hk : k ∈ m.map Prod.fst := by
      rcases List.any_eq_true.mp hany with ⟨p, hp, hpk⟩
      have hpe : p.1 = k := by simpa using hpk
      rw [← hpe]
      exact List.mem_map_of_mem Prod.fst hp
    have hmm : (m.map (fun p => if p.1 = k then (k, e) else p)).map Prod.fst
        = m.map Prod.fst := by
      rw [List.map_map]
      apply List.map_congr_left
      intro p hp
      by_cases hpk : p.1 = k
      · simp [hpk]
      · simp [hpk]
    rw [hmm]
    constructor
    · exact Or.inl
    · rintro (hx | rfl)
      · exact hx
      · exact hk
  · rw [if_neg hany]
    rw [List.map_append]
    simp

lemma build_keys_sub : ∀ (rs : List VideoResult) (m : List (String × MapEntry)) (x : String),
    x ∈ (rs.foldl mapStep m).map Prod.fst →
    x ∈ m.map Prod.fst ∨ ∃ r ∈ rs, pngTruthy r = true ∧ pngKey r = x := by
  intro rs
  induction rs with
  | nil =>
    intro m x hx
    exact Or.inl (by simpa using hx)
  | cons r rs ih =>
    intro m x hx
    rw [List.foldl_cons] at hx
    rcases ih (mapStep m r) x hx with hm | ⟨r', hr', ht, hk⟩
    · unfold mapStep at hm
      by_cases htr : pngTruthy r = true
      · rw [if_pos htr] at hm
        rcases (keys_dictInsert m (pngKey r) (mkEntry r) x).mp hm with h | h
        · exact Or.inl h
        · exact Or.inr ⟨r, List.mem_cons_self r rs, htr, h.symm⟩
      · rw [if_neg htr] at hm
        exact Or.inl hm
    · exact Or.inr ⟨r', List.mem_cons_of_mem r hr', ht, hk⟩

lemma truthy_png (r : VideoResult) (h : pngTruthy r = true) :
    r.slate_found = true ∧ r.png_filename = some (pngKey r) ∧ pngKey r ≠ "" := by
  unfold pngTruthy at h
  rw [Bool.and_eq_true] at h
  obtain ⟨h1, h2⟩ := h
  have h2' : pngKey r ≠ "" := of_decide_eq_true h2
  refine ⟨h1, ?_, h2'⟩
  cases hp : r.png_filename with
  | none =>
    exfalso
    apply h2'
    unfold pngKey
    rw [hp]
    rfl
  | some s =>
    unfold pngKey
    rw [hp]
    rfl

lemma build_filter_slate : ∀ (rs : List VideoResult) (m : List (String × MapEntry)),
    rs.foldl mapStep m = (rs.filter (fun r => r.slate_found)).foldl mapStep m := by
  intro rs
  induction rs with
  | nil => intro m; rfl
  | cons r rs ih =>
    intro m
    by_cases hs : r.slate_found = true
    · rw [List.foldl_cons, ih (mapStep m r)]
      rw [show (r :: rs).filter (fun r => r.slate_found) =
        r :: rs.filter (fun r => r.slate_found) by simp [List.filter_cons, hs]]
      rw [List.foldl_cons]
    · have hns : mapStep m r = m := by
        unfold mapStep
        rw [if_neg]
        intro ht
        exact hs (truthy_png r ht).1
      rw [List.foldl_cons, hns, ih m]
      rw [show (r :: rs).filter (fun r => r.slate_found) =
        rs.filter (fun r => r.slate_found) by simp [List.filter_cons, hs]]

/- ===== claim C7 (mapping/metadata consistency) ===== -/

/-- C7 counterexample: for the results list `[rDup, rDup]` (two results
sharing the persisted filename `"a.png"`), the mapping has the key
`"a.png"` but TWO results with `slate_found = true` and that non-null
filename correspond to it — not exactly one as the claim states. -/
theorem c7_duplicate_key_two_results :
    (build_mapping [rDup, rDup]).map Prod.fst = ["a.png"] ∧
    List.countP (fun r => r.slate_found && (r.png_filename == some "a.png")) [rDup, rDup] = 2 := by
  decide

/-- C7 amended: every key of the mapping comes from at least one result
with `slate_found = true` and a non-null (and non-empty) persisted
filename; results with `slate_found = false` contribute nothing to the
mapping; and when the persisted filenames of the contributing results
are pairwise distinct, each key corresponds to exactly one result. -/
theorem c7_mapping_consistency (results : List VideoResult) :
    (∀ k : String, k ∈ (build_mapping results).map Prod.fst →
        ∃ r ∈ results, r.slate_found = true ∧ r.png_filename = some k ∧ k ≠ "") ∧
    build_mapping results = build_mapping (results.filter (fun r => r.slate_found)) ∧
    (((results.filter pngTruthy).map pngKey).Nodup →
      ∀ k : String, k ∈ (build_mapping results).map Prod.fst →
        List.countP (fun r => pngTruthy r && (pngKey r == k)) results = 1) := by
  refine ⟨?_, ?_, ?_⟩
  · intro k hk
    rcases build_keys_sub results [] k (by simpa [build_mapping] using hk) with
      h0 | ⟨r, hr, ht, hkk⟩
    · simp at h0
    · obtain ⟨h1, h2, h3⟩ := truthy_png r ht
      rw [hkk] at h2 h3
      exact ⟨r, hr, h1, h2, h3⟩
  · unfold build_mapping
    exact build_filter_slate results []
  · intro hnd k hk
    have hex : ∃ r ∈ results, (pngTruthy r && (pngKey r == k)) = true := by
      rcases build_keys_sub results [] k (by simpa [build_mapping] using hk) with
        h0 | ⟨r, hr, ht, hkk⟩
      · simp at h0
      · refine ⟨r, hr, ?_⟩
        rw [Bool.and_eq_true]
        exact ⟨ht, by simp [hkk]⟩
    have hpos : 0 < List.countP (fun r => pngTruthy r && (pngKey r == k)) results :=
      List.countP_pos_iff.mpr hex
    have hle : List.countP (fun r => pngTruthy r && (pngKey r == k)) results ≤ 1 := by
      have efun : (fun r => pngTruthy r && (pngKey r == k)) =
          (fun r => (pngKey r == k) && pngTruthy r) := by
        funext a
        exact Bool.and_comm _ _
      have e1 : List.countP (fun r => pngTruthy r && (pngKey r == k)) results
          = List.countP (fun r => (pngKey r == k)) (results.filter pngTruthy) := by
        rw [List.countP_filter, efun]
      have e2 : List.countP (fun r => (pngKey r == k)) (results.filter pngTruthy)
          = List.count k ((results.filter pngTruthy).map pngKey) := by
        rw [List.count_eq_countP, List.countP_map]
        rfl
      rw [e1, e2]
      exact List.nodup_iff_count_le_one.mp hnd k
    omega

/-- Witness for the amended C7 on a one-element results list. -/
theorem c7_mapping_witness :
    (∃ r ∈ [rGood], r.slate_found = true ∧ r.png_filename = some "b.png" ∧ "b.png" ≠ "") ∧
    build_mapping [rGood] = build_mapping ([rGood].filter (fun r => r.slate_found)) ∧
    List.countP (fun r => pngTruthy r && (pngKey r == "b.png")) [rGood] = 1 :=
  ⟨(c7_mapping_consistency [rGood]).1 "b.png" (by decide),
   (c7_mapping_consistency [rGood]).2.1,
   (c7_mapping_consistency [rGood]).2.2 (by decide) "b.png" (by decide)⟩

/- ===== claim C9 (video discovery) ===== -/

/-- C9 counterexample: the file name `"a.Mp4"` has an allow-listed
extension up to letter case (its lowercase form ends in `".mp4"`), yet
`find_video_files` misses it: the code only globs the all-lowercase and
all-uppercase spellings of each extension, not arbitrary case mixtures. -/
theorem c9_mixed_case_missed :
    VIDEO_EXTENSIONS.any (fun e => strEndsWith (lowerStr "a.Mp4") e) = true ∧
    find_video_files ["a.Mp4"] = [] := by
  decide

/-- C9 amended: discovery returns exactly the files whose name ends in
an allow-listed extension spelled all-lowercase or all-uppercase,
deduplicated and deterministically sorted. -/
theorem c9_discovery_characterization (files : List String) :
    (∀ n : String, n ∈ find_video_files files ↔ n ∈ files ∧ matchesExt n = true) ∧
    (find_video_files files).Nodup ∧
    (find_video_files files).Sorted (fun a b : String => a ≤ b) := by
  have hperm : List.Perm (find_video_files files) ((files.filter matchesExt).dedup) :=
    List.perm_insertionSort _ _
  refine ⟨?_, ?_, ?_⟩
  · intro n
    rw [hperm.mem_iff, List.mem_dedup, List.mem_filter]
  · exact hperm.nodup_iff.mpr (List.nodup_dedup _)
  · exact List.sorted_insertionSort _ _

/-- Witness for the amended C9 on a concrete two-file tree. -/
theorem c9_discovery_witness :
    ("b.mp4" ∈ find_video_files ["a.Mp4", "b.mp4"] ↔
      "b.mp4" ∈ ["a.Mp4", "b.mp4"] ∧ matchesExt "b.mp4" = true) ∧
    (find_video_files ["a.Mp4", "b.mp4"]).Nodup ∧
    (find_video_files ["a.Mp4", "b.mp4"]).Sorted (fun a b : String => a ≤ b) :=
  ⟨(c9_discovery_characterization ["a.Mp4", "b.mp4"]).1 "b.mp4",
   (c9_discovery_characterization ["a.Mp4", "b.mp4"]).2.1,
   (c9_discovery_characterization ["a.Mp4", "b.mp4"]).2.2⟩
